import Mathlib

/-!
Verification development for the agent orchestrator (repository agent_inc).

The definitions below are a shallow embedding of the Go orchestrator:
  * the task / phase / expert data model and the phase-approval HTTP handler
    (src/unnamed/part_004, first document, and src/orchestrator/main.go —
    the handlers are textually identical up to persistence calls),
  * the expert execution path and the phase-completion check
    (executeDomainExpert / checkPhaseCompletion in src/unnamed/part_004),
  * cold-start loading of tasks (loadTasksFromDB / loadAllTasks),
  * the gRPC retry client (src/unnamed/part_002, canDelegate version),
  * the sandbox readiness wait (src/orchestrator/docker/manager.go),
  * the planner-response routing of both executeTask variants
    (src/unnamed/part_004 generatePhasedPlan, src/orchestrator/main.go).

Statuses are kept as the literal strings the Go code uses.  Timestamps,
logging, WebSocket broadcasts and database persistence calls are effects
that do not change the control flow and are omitted; where a claim is
about such an effect (a spawned goroutine, a wait) the effect is recorded
explicitly in the returned record.
-/

namespace AgentInc

/-- Mirrors the Go struct `DomainExpert` (src/unnamed/part_004 lines 65-72). -/
structure DomainExpert where
  role : String
  expertise : String
  persona : String
  task : String
  status : String
  result : String
deriving Repr, DecidableEq, Inhabited

/-- Mirrors the Go struct `ProjectPhase` (src/unnamed/part_004 lines 51-63).
The `Results map[string]string` is modelled as an association list; the
start/end timestamps are omitted. -/
structure ProjectPhase where
  id : String
  name : String
  description : String
  status : String
  experts : List DomainExpert
  results : List (String × String)
  approved : Bool
  userFeedback : String
deriving Repr, DecidableEq, Inhabited

/-- Mirrors the Go struct `TaskExecution` (src/unnamed/part_004 lines 33-49).
The context/cancel handles, tree pointers and timestamps are omitted. -/
structure TaskExecution where
  id : String
  task : String
  status : String
  result : String
  error : String
  phases : List ProjectPhase
  currentPhase : Nat
  requiresUserApproval : Bool
deriving Repr, DecidableEq, Inhabited

/-- Mirrors proto message `SubTaskRequest` (src/proto/agent.proto). -/
structure SubTaskRequest where
  requestedPersona : String
  taskDetails : String
deriving Repr, DecidableEq, Inhabited

/-- Mirrors proto message `TaskResult` (src/proto/agent.proto); the echoed
task id is omitted. -/
structure TaskResult where
  success : Bool
  finalContent : String
  errorMessage : String
  subTasks : List SubTaskRequest
deriving Repr, DecidableEq, Inhabited

/-- Mirrors the Go struct `PhaseApprovalRequest` (src/unnamed/part_004
lines 74-79). -/
structure PhaseApprovalRequest where
  taskId : String
  phaseId : String
  approved : Bool
  userFeedback : String
deriving Repr, DecidableEq, Inhabited

/-- The HTTP output of the approval handler: `http.Error` responses carry
their status code, and the final JSON encode of success flag, phase and
task snapshot goes out with the implicit HTTP 200. -/
inductive ApprovalHttpResponse where
  | httpError (code : Nat) (msg : String)
  | ok200 (success : Bool) (phase : ProjectPhase) (task : TaskExecution)
deriving Repr, DecidableEq

/-- Everything the handler does: the HTTP response, the updated task record
(`none` when the handler returned before touching any task), and whether a
`go startNextPhase(execution)` goroutine was spawned. -/
structure ApprovalEffect where
  response : ApprovalHttpResponse
  task : Option TaskExecution
  startedNextPhase : Bool
deriving Repr, DecidableEq

/-- In-memory task map `currentTasks[req.TaskID]`, modelled as lookup by id
in a list of task records. -/
def findTask (tasks : List TaskExecution) (tid : String) : Option TaskExecution :=
  tasks.find? (fun t => t.id == tid)

/-- The handler's loop over `execution.Phases` comparing each `ID` with
`req.PhaseID`: index of the first phase with the given id. -/
def findPhaseIdx (phases : List ProjectPhase) (pid : String) : Option Nat :=
  phases.findIdx? (fun p => p.id == pid)

/-- The in-place mutations `phase.Approved = req.Approved`,
`phase.UserFeedback = req.UserFeedback`, followed by the status assignment
in the approve/reject branch. -/
def approvalPhaseUpdate (p : ProjectPhase) (req : PhaseApprovalRequest) : ProjectPhase :=
  { p with
    approved := req.approved
    userFeedback := req.userFeedback
    status := if req.approved then "approved" else "rejected" }

/-- Body of `handlePhaseApproval` once the task and the phase (at index
`i`) have been found — src/unnamed/part_004 lines 637-679 and
src/orchestrator/main.go lines 283-314.  Note the Go code checks nothing
about the phase's current status or about `execution.CurrentPhase` before
applying the decision. -/
def applyPhaseDecision (exec : TaskExecution) (i : Nat) (req : PhaseApprovalRequest) :
    ApprovalEffect :=
  let p := approvalPhaseUpdate (exec.phases.getD i default) req
  let exec1 : TaskExecution := { exec with phases := exec.phases.set i p }
  if req.approved then
    if exec1.currentPhase < exec1.phases.length - 1 then
      let exec2 := { exec1 with currentPhase := exec1.currentPhase + 1 }
      { response := .ok200 true p exec2, task := some exec2, startedNextPhase := true }
    else
      let exec2 := { exec1 with status := "completed" }
      { response := .ok200 true p exec2, task := some exec2, startedNextPhase := false }
  else
    let exec2 := { exec1 with
      status := "failed"
      error := "Phase rejected by user: " ++ req.userFeedback }
    { response := .ok200 true p exec2, task := some exec2, startedNextPhase := false }

/-- `handlePhaseApproval` (src/unnamed/part_004 lines 585-680,
src/orchestrator/main.go lines 247-314): 404 when the task or the phase is
unknown, otherwise apply the decision unconditionally. -/
def handlePhaseApproval (tasks : List TaskExecution) (req : PhaseApprovalRequest) :
    ApprovalEffect :=
  match findTask tasks req.taskId with
  | none => { response := .httpError 404 "Task not found", task := none, startedNextPhase := false }
  | some exec =>
    match findPhaseIdx exec.phases req.phaseId with
    | none => { response := .httpError 404 "Phase not found", task := none, startedNextPhase := false }
    | some i => applyPhaseDecision exec i req

/-- The `phase.ID == "phase_1_planning" || strings.HasPrefix(phase.ID,
"phase-1")` test of executeDomainExpert (src/unnamed/part_004 lines
765-766): delegation is denied based purely on the phase id string. -/
def isPhaseOneId (pid : String) : Bool :=
  pid == "phase_1_planning" || "phase-1".toList.isPrefixOf pid.toList

/-- Terminal test used by checkPhaseCompletion: `expert.Status !=
"completed" && expert.Status != "failed"` flips `allCompleted`. -/
def expertTerminal (e : DomainExpert) : Bool :=
  e.status == "completed" || e.status == "failed"

/-- `allCompleted` of checkPhaseCompletion: every expert of the phase is
terminal. -/
def allExpertsTerminal (p : ProjectPhase) : Bool :=
  p.experts.all expertTerminal

/-- What the environment did when the scheduler ran one expert: the sandbox
spawn failed, the gRPC client returned an error after its retries, or a
`TaskResult` came back. -/
inductive AgentCallOutcome where
  | spawnError (msg : String)
  | transportError (msg : String)
  | reply (r : TaskResult)
deriving Repr, DecidableEq

/-- Everything one run of `executeDomainExpert` does to its expert:
the final expert record, the `can_delegate` flag passed to
`tasks.ExecuteTaskOnAgent` (`none` when spawning failed before the RPC was
made), the entry written into `phase.Results` (success path only), and
whether the run reached the final `checkPhaseCompletion(taskID, phase)`
call. -/
structure ExpertRunEffect where
  expert : DomainExpert
  canDelegateSent : Option Bool
  storedResult : Option (String × String)
  ranCompletionCheck : Bool
deriving Repr, DecidableEq

/-- `executeDomainExpert` (src/unnamed/part_004 lines 715-829).  The three
failure paths (spawn error, transport error, worker-reported failure) each
`return` before the trailing `checkPhaseCompletion` call; only the success
path reaches it.  A successful reply is stored whatever its `subTasks`
list contains — the phased path never inspects it. -/
def executeDomainExpert (phase : ProjectPhase) (expert : DomainExpert)
    (outcome : AgentCallOutcome) : ExpertRunEffect :=
  let running := { expert with status := "running" }
  match outcome with
  | .spawnError msg =>
    { expert := { running with status := "failed", result := "Error spawning agent: " ++ msg }
      canDelegateSent := none
      storedResult := none
      ranCompletionCheck := false }
  | .transportError msg =>
    { expert := { running with status := "failed", result := "Error: " ++ msg }
      canDelegateSent := some (!(isPhaseOneId phase.id))
      storedResult := none
      ranCompletionCheck := false }
  | .reply r =>
    if !r.success then
      { expert := { running with status := "failed", result := "AGENT ERROR: " ++ r.errorMessage }
        canDelegateSent := some (!(isPhaseOneId phase.id))
        storedResult := none
        ranCompletionCheck := false }
    else
      { expert := { running with status := "completed", result := r.finalContent }
        canDelegateSent := some (!(isPhaseOneId phase.id))
        storedResult := some (expert.role, r.finalContent)
        ranCompletionCheck := true }

/-- Result of `checkPhaseCompletion`: the updated task and whether a
`go startNextPhase(execution)` goroutine was spawned. -/
structure CompletionEffect where
  task : TaskExecution
  startedNextPhase : Bool
deriving Repr, DecidableEq

/-- `checkPhaseCompletion` (src/unnamed/part_004 lines 831-902) acting on
the phase at index `i`: when every expert is terminal the phase becomes
`completed`, then `awaiting_approval` when the task requires user
approval, otherwise auto-approval (`approved=true`, status `approved`)
followed by advancing to the next phase or completing the task. -/
def checkPhaseCompletion (exec : TaskExecution) (i : Nat) : CompletionEffect :=
  let p := exec.phases.getD i default
  if allExpertsTerminal p then
    let p1 := { p with status := "completed" }
    if exec.requiresUserApproval then
      let p2 := { p1 with status := "awaiting_approval" }
      { task := { exec with phases := exec.phases.set i p2 }, startedNextPhase := false }
    else
      let p2 := { p1 with approved := true, status := "approved" }
      let exec1 : TaskExecution := { exec with phases := exec.phases.set i p2 }
      if exec1.currentPhase < exec1.phases.length - 1 then
        { task := { exec1 with currentPhase := exec1.currentPhase + 1 }, startedNextPhase := true }
      else
        { task := { exec1 with status := "completed" }, startedNextPhase := false }
  else
    { task := exec, startedNextPhase := false }

/-- Association-list update mirroring `phase.Results[expert.Role] =
result.FinalContent` on the Go map. -/
def assocSet (l : List (String × String)) (k v : String) : List (String × String) :=
  match l with
  | [] => [(k, v)]
  | (k0, v0) :: rest => if k0 == k then (k, v) :: rest else (k0, v0) :: assocSet rest k v

/-- One expert of phase `i` (expert index `j`) terminates with `outcome`:
`executeDomainExpert` runs, its expert/result updates land in the phase,
and — exactly when the run reached it — `checkPhaseCompletion` runs.
Returns the resulting task, the run effect, and whether a next phase was
started. -/
def expertTerminationStep (exec : TaskExecution) (i j : Nat)
    (outcome : AgentCallOutcome) : TaskExecution × ExpertRunEffect × Bool :=
  let p := exec.phases.getD i default
  let e := p.experts.getD j default
  let eff := executeDomainExpert p e outcome
  let p1 := { p with
    experts := p.experts.set j eff.expert
    results := match eff.storedResult with
               | some (k, v) => assocSet p.results k v
               | none => p.results }
  let exec1 : TaskExecution := { exec with phases := exec.phases.set i p1 }
  if eff.ranCompletionCheck then
    let c := checkPhaseCompletion exec1 i
    (c.task, eff, c.startedNextPhase)
  else
    (exec1, eff, false)

/-- `loadAllTasks` (src/unnamed/part_004 lines 120-135): iterate over the
stored records; a record that fails to deserialize (`none`) is skipped
with a warning, every other record is returned verbatim.
`loadTasksFromDB` (lines 280-296) then inserts each returned task into the
in-memory map unchanged. -/
def loadAllTasks : List (Option TaskExecution) → List TaskExecution
  | [] => []
  | none :: rest => loadAllTasks rest
  | some t :: rest => t :: loadAllTasks rest

/-- `maxRetries := 3` of ExecuteTaskOnAgent (src/unnamed/part_002). -/
def maxRetries : Nat := 3

/-- What one `ExecuteTaskOnAgent` call did: the value returned to the
caller, the attempt numbers that actually ran (each attempt is one
`attemptTaskExecution` call on a freshly dialed connection), and the
seconds waited between attempts. -/
structure RetryTrace where
  result : Except String TaskResult
  attempts : List Nat
  waitsSeconds : List Nat
deriving Repr

/-- The `for attempt := 1; attempt <= maxRetries; attempt++` loop of
`ExecuteTaskOnAgent` (src/unnamed/part_002 lines 92-113).  `outcome n` is
what the n-th `attemptTaskExecution` call returns.  On success the result
is returned at once; on error the loop waits `attempt * 2` seconds when
more attempts remain.  The fuel starts at `maxRetries`, matching the loop
bound. -/
def retryLoop (outcome : Nat → Except String TaskResult) :
    Nat → Nat → RetryTrace
  | _, 0 => { result := .error "failed after 3 attempts", attempts := [], waitsSeconds := [] }
  | attempt, fuel + 1 =>
    match outcome attempt with
    | .ok r => { result := .ok r, attempts := [attempt], waitsSeconds := [] }
    | .error _ =>
      let rest := retryLoop outcome (attempt + 1) fuel
      { result := rest.result
        attempts := attempt :: rest.attempts
        waitsSeconds :=
          (if attempt < maxRetries then [attempt * 2] else []) ++ rest.waitsSeconds }

/-- `ExecuteTaskOnAgent` (src/unnamed/part_002, canDelegate version, lines
92-113), abstracted over the per-attempt outcome. -/
def executeTaskOnAgent (outcome : Nat → Except String TaskResult) : RetryTrace :=
  retryLoop outcome 1 maxRetries

/-- `AgentContainer` returned by SpawnAgent
(src/orchestrator/docker/manager.go lines 28-32): note it carries no
readiness flag of any kind. -/
structure AgentContainer where
  id : String
  address : String
  port : Nat
deriving Repr, DecidableEq

/-- Readiness deadline of the SpawnAgent wait loop: `maxWaitTime := 30 *
time.Second` with `checkInterval := 1 * time.Second`. -/
def maxWaitSeconds : Nat := 30

/-- The fixed grace after the first successful dial: `time.Sleep(5 *
time.Second)`. -/
def graceSeconds : Nat := 5

/-- Trace of the readiness wait loop: how many TCP dials were made,
whether one succeeded, and how many grace seconds were slept after the
first success. -/
structure SpawnWaitTrace where
  polls : Nat
  ready : Bool
  graceSleptSeconds : Nat
deriving Repr, DecidableEq

/-- The `for time.Since(startTime) < maxWaitTime` loop of SpawnAgent
(src/orchestrator/docker/manager.go lines 105-130): one TCP dial per
second of the 30-second window (`dialOk t` is the dial at elapsed second
`t`); the first success sleeps the 5-second grace and breaks; a failure
sleeps the 1-second check interval and retries; the window running out
just breaks. -/
def spawnWaitAux (dialOk : Nat → Bool) : Nat → Nat → SpawnWaitTrace
  | _, 0 => { polls := 0, ready := false, graceSleptSeconds := 0 }
  | t, fuel + 1 =>
    if dialOk t then
      { polls := 1, ready := true, graceSleptSeconds := graceSeconds }
    else
      let rest := spawnWaitAux dialOk (t + 1) fuel
      { polls := rest.polls + 1, ready := rest.ready, graceSleptSeconds := rest.graceSleptSeconds }

/-- The readiness wait of one SpawnAgent call. -/
def spawnWait (dialOk : Nat → Bool) : SpawnWaitTrace :=
  spawnWaitAux dialOk 0 maxWaitSeconds

/-- What SpawnAgent returns after the container has started
(src/orchestrator/docker/manager.go lines 105-137): the wait loop runs,
its outcome is logged, and the same `AgentContainer` value holding the id,
dial address and port is returned with a nil error whether or not the
container ever became ready — the trace is discarded. -/
def spawnAgentReturn (containerId : String) (port : Nat) (dialOk : Nat → Bool) :
    Except String AgentContainer :=
  let _trace := spawnWait dialOk
  .ok { id := containerId, address := "host.docker.internal:" ++ toString port, port := port }

/-- Character-level whitespace test of `strings.TrimSpace` (the plan
responses are ASCII; the exotic Unicode space classes are irrelevant
here). -/
def isSpaceChar (c : Char) : Bool :=
  c = ' ' || c = '\t' || c = '\n' || c = '\r'

/-- Drop leading whitespace characters. -/
def dropLeadingWs : List Char → List Char
  | [] => []
  | c :: rest => if isSpaceChar c then dropLeadingWs rest else c :: rest

/-- `strings.TrimSpace` on the character list. -/
def goTrimSpace (s : List Char) : List Char :=
  (dropLeadingWs (dropLeadingWs s.reverse).reverse)

/-- `strings.TrimPrefix`: drop the prefix when present, else unchanged. -/
def goTrimLeading (s p : List Char) : List Char :=
  if p.isPrefixOf s then s.drop p.length else s

/-- `strings.TrimSuffix`: drop the suffix when present, else unchanged. -/
def goTrimTrailing (s p : List Char) : List Char :=
  if List.isSuffixOf p s then s.take (s.length - p.length) else s

/-- The response cleanup of executeTask (src/orchestrator/main.go lines
551-557): trim space, strip the markdown fence markers, trim space
again. -/
def cleanPlanContent (finalContent : String) : List Char :=
  goTrimSpace
    (goTrimTrailing (goTrimLeading (goTrimSpace finalContent.toList) "```json".toList)
      "```".toList)

/-- The brace scan of executeTask (src/orchestrator/main.go lines
560-576): walk the characters tracking the first opening brace and a
(possibly negative) brace counter; stop at the closing brace that returns
the counter to zero after a start was seen.  Returns the half-open index
range of the outermost balanced object. -/
def braceScanAux : List Char → Nat → Option Nat → Int → Option (Nat × Nat)
  | [], _, _, _ => none
  | c :: rest, i, startIdx, count =>
    if c = '\x7b' then
      braceScanAux rest (i + 1) (some (startIdx.getD i)) (count + 1)
    else if c = '\x7d' then
      if count - 1 = 0 && startIdx.isSome then
        some (startIdx.getD 0, i + 1)
      else
        braceScanAux rest (i + 1) startIdx (count - 1)
    else
      braceScanAux rest (i + 1) startIdx count

/-- The `jsonContent` selection of executeTask (src/orchestrator/main.go
lines 578-588): the balanced-object slice when the scan found one; the
whole content when it starts with an opening brace; otherwise no JSON
structure was found. -/
def extractPlanJson (content : List Char) : Option (List Char) :=
  match braceScanAux content 0 none 0 with
  | some (s, e) => some ((content.drop s).take (e - s))
  | none =>
    if content.length > 0 && content.headD ' ' = '\x7b' then some content else none

/-- Where executeTask sends the task after the planner call. -/
inductive PlanRoute where
  | treeFallback
  | phasedStart (phases : List ProjectPhase)
deriving Repr, DecidableEq

/-- The planner-response routing of executeTask in src/orchestrator/main.go
(lines 549-606): no JSON structure, an undecodable object
(`json.Unmarshal` error, modelled by `decode` returning `none`) or a
decoded plan with zero phases each fall back to `executeTaskWithTree`;
only a non-empty decoded plan starts the phased mode.  Nothing on the
fallback paths marks the task `failed`. -/
def mainGoPlanRoute (finalContent : String)
    (decode : List Char → Option (List ProjectPhase)) : PlanRoute :=
  let content := cleanPlanContent finalContent
  match extractPlanJson content with
  | none => .treeFallback
  | some js =>
    match decode js with
    | none => .treeFallback
    | some ps => if ps.length = 0 then .treeFallback else .phasedStart ps

/-- `generatePhasedPlan` of the bolt-backed orchestrator
(src/unnamed/part_004 lines 1008-1033), abstracted over the
`json.Unmarshal` outcome: a parse failure or a plan with zero phases is a
typed error; otherwise the phase list is installed. -/
def generatePhasedPlan (decoded : Option (List ProjectPhase)) :
    Except String (List ProjectPhase) :=
  match decoded with
  | none => .error "failed to parse phased plan from lead agent"
  | some ps =>
    if ps.length = 0 then .error "lead agent returned a plan with no phases"
    else .ok ps

/-- Outcome of executeTask in src/unnamed/part_004 (lines 955-1005): the
task `failed` with the planner error, the phased mode started, or the
tree fallback (reachable there only if a successful plan were empty,
which generatePhasedPlan excludes). -/
inductive PhasedExecOutcome where
  | failedTask (error : String)
  | startPhases (phases : List ProjectPhase)
  | treeFallback
deriving Repr, DecidableEq

/-- executeTask of the bolt-backed orchestrator (src/unnamed/part_004
lines 955-1005): on a generatePhasedPlan error the task status becomes
`failed` with that error and the function returns — no fallback runs. -/
def part004ExecuteTask (decoded : Option (List ProjectPhase)) : PhasedExecOutcome :=
  match generatePhasedPlan decoded with
  | .error e => .failedTask e
  | .ok ps => if ps.length > 0 then .startPhases ps else .treeFallback

/-- Whether the scheduler received a reply with `success=true`; this is the
only outcome whose executeDomainExpert path reaches checkPhaseCompletion. -/
def isSuccessReply : AgentCallOutcome → Bool
  | .reply r => r.success
  | _ => false

/-- A single running expert. -/
def poet : DomainExpert :=
  { role := "poet", expertise := "poetry", persona := "You are a poet."
    task := "Write a haiku.", status := "running", result := "" }

/-- A completed expert, for phases that already finished. -/
def doneExpert : DomainExpert :=
  { role := "architect", expertise := "design", persona := "You are an architect."
    task := "Design it.", status := "completed", result := "done" }

/-- A running first phase whose planner-assigned id is the canonical
`phase_1_planning`. -/
def phaseP1 : ProjectPhase :=
  { id := "phase_1_planning", name := "Planning", description := "plan"
    status := "running", experts := [poet], results := []
    approved := false, userFeedback := "" }

/-- A one-phase task awaiting its only expert. -/
def taskT1 : TaskExecution :=
  { id := "task_1", task := "Write a haiku.", status := "running"
    result := "", error := "", phases := [phaseP1], currentPhase := 0
    requiresUserApproval := true }

/-- A worker reply reporting failure. -/
def failReply : TaskResult :=
  { success := false, finalContent := "", errorMessage := "LLM timeout", subTasks := [] }

/-- A worker reply reporting success with no delegation. -/
def okReply : TaskResult :=
  { success := true, finalContent := "a fine haiku", errorMessage := "", subTasks := [] }

/-- A worker reply reporting success together with a sub-task list. -/
def delegReply : TaskResult :=
  { success := true, finalContent := "done", errorMessage := ""
    subTasks := [{ requestedPersona := "firmware developer", taskDetails := "write the driver" }] }

/-- A first phase whose planner-assigned id is not a phase-one id. -/
def phaseIdx0 : ProjectPhase :=
  { id := "requirements", name := "Requirements", description := "gather"
    status := "running", experts := [poet], results := []
    approved := false, userFeedback := "" }

/-- A second phase whose planner-assigned id happens to start with
`phase-1`. -/
def phaseIdx1 : ProjectPhase :=
  { id := "phase-1-implementation", name := "Implementation", description := "build"
    status := "running", experts := [poet], results := []
    approved := false, userFeedback := "" }

/-- A two-phase task used to exhibit the phase-index/phase-id mismatch. -/
def taskT4 : TaskExecution :=
  { id := "task_4", task := "Build the system.", status := "running"
    result := "", error := "", phases := [phaseIdx0, phaseIdx1], currentPhase := 0
    requiresUserApproval := true }

/-- A task persisted in status `planning`, as left behind by a crash
during planning. -/
def planningTask : TaskExecution :=
  { id := "task_5", task := "Design auth system.", status := "planning"
    result := "", error := "", phases := [], currentPhase := 0
    requiresUserApproval := true }

/-- An already approved first phase, as left behind by a first approval
call. -/
def phaseDoneA : ProjectPhase :=
  { id := "p1", name := "Design", description := "design it"
    status := "approved", experts := [doneExpert], results := [("architect", "done")]
    approved := true, userFeedback := "" }

/-- The running second phase. -/
def phaseRunB : ProjectPhase :=
  { id := "p2", name := "Build", description := "build it"
    status := "running", experts := [poet], results := []
    approved := false, userFeedback := "" }

/-- The pending third phase. -/
def phasePendC : ProjectPhase :=
  { id := "p3", name := "Test", description := "test it"
    status := "pending", experts := [poet], results := []
    approved := false, userFeedback := "" }

/-- A three-phase task whose first phase was already approved:
`current_phase` is 1 and phase `p2` is running. -/
def taskT2 : TaskExecution :=
  { id := "task_2", task := "Design auth system.", status := "running"
    result := "", error := "", phases := [phaseDoneA, phaseRunB, phasePendC]
    currentPhase := 1, requiresUserApproval := true }

/-- A duplicate approval of the already approved phase `p1`. -/
def dupApprovalReq : PhaseApprovalRequest :=
  { taskId := "task_2", phaseId := "p1", approved := true, userFeedback := "" }

/-- A phase awaiting the user's decision. -/
def phaseWaitD : ProjectPhase :=
  { id := "p1", name := "Design", description := "design it"
    status := "awaiting_approval", experts := [doneExpert]
    results := [("architect", "done")], approved := false, userFeedback := "" }

/-- A two-phase task whose first phase awaits approval. -/
def taskT3 : TaskExecution :=
  { id := "task_3", task := "Design auth system.", status := "running"
    result := "", error := "", phases := [phaseWaitD, phasePendC]
    currentPhase := 0, requiresUserApproval := true }

/-- A rejection of phase `p1` with feedback `bad`. -/
def rejectReq : PhaseApprovalRequest :=
  { taskId := "task_3", phaseId := "p1", approved := false, userFeedback := "bad" }

/-- A concrete attempt schedule: the first attempt fails, the second
succeeds. -/
def w8outcome : Nat → Except String TaskResult :=
  fun n => if n = 2 then .ok okReply else .error "connection refused"

/-- A dial schedule whose third poll (elapsed second 2) succeeds. -/
def w9dial : Nat → Bool := fun t => t == 2

/-- Reading back the element just written by `List.set`. -/
theorem getD_set_eq_of_lt {α : Type} (l : List α) (i : Nat) (x d : α)
    (h : i < l.length) : (l.set i x).getD i d = x := by
  induction l generalizing i with
  | nil => simp at h
  | cons a t ih =>
    cases i with
    | zero => rfl
    | succ n => simpa using ih n (by simpa using h)

/-- When every expert of phase `i` is terminal, checkPhaseCompletion ends
with that phase in status `awaiting_approval` (approval required) or
`approved` (auto-approval). -/
theorem checkPhaseCompletion_phase_status (exec : TaskExecution) (i : Nat)
    (hi : i < exec.phases.length)
    (hall : allExpertsTerminal (exec.phases.getD i default) = true) :
    ((checkPhaseCompletion exec i).task.phases.getD i default).status = "awaiting_approval" ∨
    ((checkPhaseCompletion exec i).task.phases.getD i default).status = "approved" := by
  unfold checkPhaseCompletion
  simp only [hall, if_true]
  by_cases hr : exec.requiresUserApproval
  · simp only [hr, if_true]
    left
    rw [getD_set_eq_of_lt _ _ _ _ hi]
  · simp only [hr, Bool.false_eq_true, if_false]
    right
    split
    · rw [getD_set_eq_of_lt _ _ _ _ hi]
    · rw [getD_set_eq_of_lt _ _ _ _ hi]

/-- When some expert of phase `i` is still non-terminal,
checkPhaseCompletion does nothing. -/
theorem checkPhaseCompletion_not_all_terminal (exec : TaskExecution) (i : Nat)
    (hall : allExpertsTerminal (exec.phases.getD i default) = false) :
    checkPhaseCompletion exec i = { task := exec, startedNextPhase := false } := by
  unfold checkPhaseCompletion
  simp only [hall, Bool.false_eq_true, if_false]

/-- Claim C1 counterexample: in a one-expert phase the expert terminates
with a worker-reported failure (`success=false`).  Every expert of the
phase is then terminal, yet the run never reaches `checkPhaseCompletion`
(the failure path returns first), no next phase is started, and the
phase's status stays `running` — never `awaiting_approval`, `approved` or
`completed`.  No other code path will ever run the completion check for
this phase. -/
theorem c1_counterexample :
    (expertTerminationStep taskT1 0 0 (.reply failReply)).2.1.ranCompletionCheck = false ∧
    allExpertsTerminal
      ((expertTerminationStep taskT1 0 0 (.reply failReply)).1.phases.getD 0 default) = true ∧
    ((expertTerminationStep taskT1 0 0 (.reply failReply)).1.phases.getD 0 default).status =
      "running" ∧
    (expertTerminationStep taskT1 0 0 (.reply failReply)).2.2 = false := by
  decide

/-- Claim C1 amended: the phase-completion check runs only when the
terminating expert succeeded (`success=true` reply); the spawn-failure,
transport-failure and worker-failure paths skip it.  When the check does
run and every expert of the phase is terminal, the phase's status becomes
`awaiting_approval` or `approved`. -/
theorem c1_amended (exec : TaskExecution) (i j : Nat) (outcome : AgentCallOutcome)
    (hi : i < exec.phases.length) :
    (expertTerminationStep exec i j outcome).2.1.ranCompletionCheck = isSuccessReply outcome ∧
    ((expertTerminationStep exec i j outcome).2.1.ranCompletionCheck = true →
      allExpertsTerminal
        ((expertTerminationStep exec i j outcome).1.phases.getD i default) = true →
      ((expertTerminationStep exec i j outcome).1.phases.getD i default).status =
          "awaiting_approval" ∨
      ((expertTerminationStep exec i j outcome).1.phases.getD i default).status =
          "approved") := by
  cases outcome with
  | spawnError msg =>
    refine ⟨rfl, ?_⟩
    intro hrun
    simp [expertTerminationStep, executeDomainExpert] at hrun
  | transportError msg =>
    refine ⟨rfl, ?_⟩
    intro hrun
    simp [expertTerminationStep, executeDomainExpert] at hrun
  | reply r =>
    by_cases hs : r.success
    · constructor
      · simp [expertTerminationStep, executeDomainExpert, isSuccessReply, hs]
      · intro _ hterm
        simp only [expertTerminationStep, executeDomainExpert, hs, Bool.not_true,
          Bool.false_eq_true, if_false, if_true] at hterm ⊢
        revert hterm
        generalize ({ (exec.phases.getD i default) with
            experts := (exec.phases.getD i default).experts.set j
              { ((exec.phases.getD i default).experts.getD j default) with
                status := "completed", result := r.finalContent }
            results := assocSet (exec.phases.getD i default).results
              ((exec.phases.getD i default).experts.getD j default).role
              r.finalContent } : ProjectPhase) = p1
        intro hterm
        have hi1 : i < (exec.phases.set i p1).length := by simpa using hi
        by_cases hall : allExpertsTerminal p1 = true
        · exact checkPhaseCompletion_phase_status
            { exec with phases := exec.phases.set i p1 } i hi1
            (by rw [getD_set_eq_of_lt _ _ _ _ hi]; exact hall)
        · have hall2 : allExpertsTerminal p1 = false := by simpa using hall
          have htask : (checkPhaseCompletion
              { exec with phases := exec.phases.set i p1 } i).task =
              { exec with phases := exec.phases.set i p1 } := by
            rw [checkPhaseCompletion_not_all_terminal
              { exec with phases := exec.phases.set i p1 } i
              (by rw [getD_set_eq_of_lt _ _ _ _ hi]; exact hall2)]
          rw [htask] at hterm
          rw [getD_set_eq_of_lt _ _ _ _ hi] at hterm
          exact absurd hterm hall
    · constructor
      · simp [expertTerminationStep, executeDomainExpert, isSuccessReply, hs]
      · intro hrun
        simp [expertTerminationStep, executeDomainExpert, hs] at hrun

/-- Claim C1 witness: the amended theorem applied to the one-expert task
whose expert terminates with a successful reply, with every hypothesis
discharged concretely. -/
theorem c1_witness :
    ((expertTerminationStep taskT1 0 0 (.reply okReply)).1.phases.getD 0 default).status =
      "awaiting_approval" ∨
    ((expertTerminationStep taskT1 0 0 (.reply okReply)).1.phases.getD 0 default).status =
      "approved" :=
  (c1_amended taskT1 0 0 (.reply okReply) (by decide)).2 (by decide) (by decide)

/-- Claim C2 counterexample: a second approval of the already approved
phase `p1` (which is also not the current phase) is not a no-op: the
handler increments `current_phase` from 1 to 2 and spawns
`startNextPhase`, starting an extra phase, while still answering
success. -/
theorem c2_counterexample :
    (handlePhaseApproval [taskT2] dupApprovalReq).startedNextPhase = true ∧
    ((handlePhaseApproval [taskT2] dupApprovalReq).task.getD default).currentPhase = 2 ∧
    taskT2.currentPhase = 1 ∧
    (∃ t, (handlePhaseApproval [taskT2] dupApprovalReq).response =
      .ok200 true (approvalPhaseUpdate phaseDoneA dupApprovalReq) t) := by
  refine ⟨by decide, by decide, by decide, ?_⟩
  exact ⟨(handlePhaseApproval [taskT2] dupApprovalReq).task.getD default, by decide⟩

/-- Claim C2 amended: the approval handler validates only that the task
and the phase exist; it never checks the phase's status or whether it is
the current phase.  Any approval of an existing phase of an existing task
runs the full approve path: when a later phase remains,
`current_phase` is incremented and the next phase is started — so a
duplicate approval does have side effects. -/
theorem c2_amended (tasks : List TaskExecution) (req : PhaseApprovalRequest)
    (exec : TaskExecution) (i : Nat)
    (hT : findTask tasks req.taskId = some exec)
    (hP : findPhaseIdx exec.phases req.phaseId = some i)
    (hA : req.approved = true)
    (hLt : exec.currentPhase < exec.phases.length - 1) :
    (handlePhaseApproval tasks req).startedNextPhase = true ∧
    ∃ t, (handlePhaseApproval tasks req).task = some t ∧
      t.currentPhase = exec.currentPhase + 1 ∧
      (handlePhaseApproval tasks req).response =
        .ok200 true (approvalPhaseUpdate (exec.phases.getD i default) req) t := by
  unfold handlePhaseApproval
  rw [hT]
  dsimp only
  rw [hP]
  dsimp only
  unfold applyPhaseDecision
  simp only [hA, if_true, List.length_set]
  rw [if_pos hLt]
  exact ⟨rfl, _, rfl, rfl, rfl⟩

/-- Claim C2 witness: the amended theorem applied to the duplicate
approval of the already approved phase `p1` of the three-phase task. -/
theorem c2_witness :
    (handlePhaseApproval [taskT2] dupApprovalReq).startedNextPhase = true ∧
    ∃ t, (handlePhaseApproval [taskT2] dupApprovalReq).task = some t ∧
      t.currentPhase = taskT2.currentPhase + 1 ∧
      (handlePhaseApproval [taskT2] dupApprovalReq).response =
        .ok200 true (approvalPhaseUpdate (taskT2.phases.getD 0 default) dupApprovalReq) t :=
  c2_amended [taskT2] dupApprovalReq taskT2 0 (by decide) (by decide) rfl (by decide)

/-- Claim C3 counterexample: in the first phase (`phase_1_planning`, so the
worker is called with `can_delegate=false`), a reply with `success=true`
and a non-empty sub-task list is marked `completed` and its content stored
as the expert's result — the scheduler never marks it `failed` and knows
no `PolicyViolation` marker, contradicting the claim. -/
theorem c3_counterexample :
    (executeDomainExpert phaseP1 poet (.reply delegReply)).canDelegateSent = some false ∧
    (executeDomainExpert phaseP1 poet (.reply delegReply)).expert.status = "completed" ∧
    (executeDomainExpert phaseP1 poet (.reply delegReply)).expert.status ≠ "failed" ∧
    (executeDomainExpert phaseP1 poet (.reply delegReply)).storedResult =
      some ("poet", "done") := by
  refine ⟨rfl, rfl, ?_, rfl⟩
  decide

/-- Claim C3 amended: the phased scheduler never inspects the sub-task
list.  Every reply with `success=true` — whatever its `subTasks` and
whatever `can_delegate` value was sent — marks the expert `completed`,
records `finalContent` as its result and stores it in the phase results;
delegation denial is enforced only inside the worker agent. -/
theorem c3_amended (phase : ProjectPhase) (expert : DomainExpert) (r : TaskResult)
    (h : r.success = true) :
    (executeDomainExpert phase expert (.reply r)).expert.status = "completed" ∧
    (executeDomainExpert phase expert (.reply r)).expert.result = r.finalContent ∧
    (executeDomainExpert phase expert (.reply r)).storedResult =
      some (expert.role, r.finalContent) := by
  simp [executeDomainExpert, h]

/-- Claim C3 witness: the amended theorem applied to the concrete
delegating reply of the counterexample scenario. -/
theorem c3_witness :
    (executeDomainExpert phaseP1 poet (.reply delegReply)).expert.status = "completed" ∧
    (executeDomainExpert phaseP1 poet (.reply delegReply)).expert.result = delegReply.finalContent ∧
    (executeDomainExpert phaseP1 poet (.reply delegReply)).storedResult =
      some (poet.role, delegReply.finalContent) :=
  c3_amended phaseP1 poet delegReply rfl

/-- Claim C4 counterexample: in src/orchestrator/main.go a planner
response with no JSON structure, an undecodable JSON object, and a decoded
plan with zero phases each send the task into the tree-recursion fallback
(`executeTaskWithTree`) — the task is not transitioned to `failed`,
contradicting the claim that the tree mode is never started on parse
failure. -/
theorem c4_counterexample :
    mainGoPlanRoute "I am unable to produce a plan." (fun _ => none) =
      PlanRoute.treeFallback ∧
    mainGoPlanRoute "brace start only:\x7boops" (fun _ => none) = PlanRoute.treeFallback ∧
    mainGoPlanRoute "\x7b\x7d" (fun _ => some []) = PlanRoute.treeFallback := by
  refine ⟨by decide, by decide, by decide⟩

/-- Claim C4 amended: the two executeTask duplicates disagree.  In the
bolt-backed orchestrator (src/unnamed/part_004) an unparsable planner
response or a plan with zero phases fails the task with the planner error
and no fallback runs; in src/orchestrator/main.go the same situations
(no JSON structure located, `json.Unmarshal` failure, or zero phases)
start the tree-recursion fallback instead and the task is not marked
failed. -/
theorem c4_amended (decoded : Option (List ProjectPhase))
    (h : decoded = none ∨ decoded = some [])
    (content : String) (decode : List Char → Option (List ProjectPhase))
    (hc : extractPlanJson (cleanPlanContent content) = none ∨ (∀ js, decode js = none) ∨
      (∀ js, decode js = some [])) :
    (∃ e, part004ExecuteTask decoded = .failedTask e) ∧
    part004ExecuteTask decoded ≠ .treeFallback ∧
    mainGoPlanRoute content decode = .treeFallback := by
  refine ⟨?_, ?_, ?_⟩
  · rcases h with h | h <;> rw [h]
    · exact ⟨_, rfl⟩
    · exact ⟨_, rfl⟩
  · rcases h with h | h <;> rw [h] <;> simp [part004ExecuteTask, generatePhasedPlan]
  · unfold mainGoPlanRoute
    rcases hE : extractPlanJson (cleanPlanContent content) with _ | js
    · simp [hE]
    · rcases hc with hc | hc | hc
      · rw [hE] at hc
        exact absurd hc (by simp)
      · simp [hE, hc js]
      · simp [hE, hc js]

/-- Claim C4 witness: the amended theorem applied to the empty decoded
plan and the unparsable concrete response text, all hypotheses discharged
concretely. -/
theorem c4_witness :
    (∃ e, part004ExecuteTask (some []) = .failedTask e) ∧
    part004ExecuteTask (some []) ≠ .treeFallback ∧
    mainGoPlanRoute "I am unable to produce a plan." (fun _ => none) =
      PlanRoute.treeFallback :=
  c4_amended (some []) (Or.inr rfl) "I am unable to produce a plan." (fun _ => none)
    (Or.inl (by decide))

/-- Claim C5 counterexample: rejecting phase `p1` with feedback `bad` sets
the task error to `Phase rejected by user: bad`, which neither equals
`Phase rejected: ` + feedback nor even starts with `Phase rejected:`. -/
theorem c5_counterexample :
    ((handlePhaseApproval [taskT3] rejectReq).task.getD default).error =
      "Phase rejected by user: bad" ∧
    ((handlePhaseApproval [taskT3] rejectReq).task.getD default).error ≠
      "Phase rejected: " ++ "bad" ∧
    ("Phase rejected:".toList.isPrefixOf
      ((handlePhaseApproval [taskT3] rejectReq).task.getD default).error.toList) = false := by
  refine ⟨by decide, by decide, by decide⟩

/-- Claim C5 amended: on a rejection of an existing phase the handler sets
the phase status to `rejected`, the task status to `failed`, the task
error to the string `Phase rejected by user: ` concatenated with the
feedback (not `Phase rejected: `), and starts no phase. -/
theorem c5_amended (tasks : List TaskExecution) (req : PhaseApprovalRequest)
    (exec : TaskExecution) (i : Nat)
    (hT : findTask tasks req.taskId = some exec)
    (hP : findPhaseIdx exec.phases req.phaseId = some i)
    (hA : req.approved = false) :
    (handlePhaseApproval tasks req).startedNextPhase = false ∧
    ∃ t, (handlePhaseApproval tasks req).task = some t ∧
      t.status = "failed" ∧
      t.error = "Phase rejected by user: " ++ req.userFeedback ∧
      (approvalPhaseUpdate (exec.phases.getD i default) req).status = "rejected" ∧
      (handlePhaseApproval tasks req).response =
        .ok200 true (approvalPhaseUpdate (exec.phases.getD i default) req) t := by
  unfold handlePhaseApproval
  rw [hT]
  dsimp only
  rw [hP]
  dsimp only
  unfold applyPhaseDecision
  simp only [hA, Bool.false_eq_true, if_false]
  refine ⟨trivial, _, rfl, rfl, rfl, ?_, rfl⟩
  simp [approvalPhaseUpdate, hA]

/-- Claim C5 witness: the amended theorem applied to the concrete
rejection of phase `p1` of the awaiting task. -/
theorem c5_witness :
    (handlePhaseApproval [taskT3] rejectReq).startedNextPhase = false ∧
    ∃ t, (handlePhaseApproval [taskT3] rejectReq).task = some t ∧
      t.status = "failed" ∧
      t.error = "Phase rejected by user: " ++ rejectReq.userFeedback ∧
      (approvalPhaseUpdate (taskT3.phases.getD 0 default) rejectReq).status = "rejected" ∧
      (handlePhaseApproval [taskT3] rejectReq).response =
        .ok200 true (approvalPhaseUpdate (taskT3.phases.getD 0 default) rejectReq) t :=
  c5_amended [taskT3] rejectReq taskT3 0 (by decide) (by decide) rfl

/-- Claim C6 counterexample: the expert call in the phase at index 0 (id
`requirements`) is sent `can_delegate=true`, and the call in the later
phase at index 1 (id `phase-1-implementation`) is sent
`can_delegate=false` — both contradicting `can_delegate = (phase_index !=
0)`. -/
theorem c6_counterexample :
    (expertTerminationStep taskT4 0 0 (.reply okReply)).2.1.canDelegateSent = some true ∧
    (expertTerminationStep taskT4 1 0 (.reply okReply)).2.1.canDelegateSent = some false := by
  decide

/-- Claim C6 amended: whenever the worker RPC is reached, the
`can_delegate` flag depends only on the phase id string: it is false
exactly when the id equals `phase_1_planning` or starts with `phase-1`,
and the phase's index in the plan plays no role (when the sandbox spawn
fails no RPC is made at all). -/
theorem c6_amended (phase : ProjectPhase) (expert : DomainExpert)
    (msg : String) (r : TaskResult) :
    (executeDomainExpert phase expert (.transportError msg)).canDelegateSent =
      some (!(isPhaseOneId phase.id)) ∧
    (executeDomainExpert phase expert (.reply r)).canDelegateSent =
      some (!(isPhaseOneId phase.id)) ∧
    (executeDomainExpert phase expert (.spawnError msg)).canDelegateSent = none := by
  refine ⟨rfl, ?_, rfl⟩
  by_cases h : r.success <;> simp [executeDomainExpert, h]

/-- Claim C7 counterexample: a stored task in status `planning` is loaded
back into the cache with status `planning`, not marked `failed` with a
CrashDuringPlanning error — cold start performs no recovery rewriting at
all. -/
theorem c7_counterexample :
    loadAllTasks [some planningTask] = [planningTask] ∧
    ((loadAllTasks [some planningTask]).getD 0 default).status = "planning" ∧
    ((loadAllTasks [some planningTask]).getD 0 default).status ≠ "failed" ∧
    ((loadAllTasks [some planningTask]).getD 0 default).error = "" := by
  refine ⟨rfl, rfl, ?_, rfl⟩
  decide

/-- Claim C7 amended: cold start loads every deserializable stored record
verbatim and skips undecodable ones; a task is in the loaded cache exactly
when its identical record is in the store, so no status (`pending`,
`planning`, `running` included) is rewritten and no expert is reset. -/
theorem c7_amended (stored : List (Option TaskExecution)) (t : TaskExecution) :
    t ∈ loadAllTasks stored ↔ some t ∈ stored := by
  induction stored with
  | nil => simp [loadAllTasks]
  | cons hd rest ih =>
    cases hd with
    | none =>
      simp [loadAllTasks, ih]
    | some u =>
      simp [loadAllTasks, ih]

/-- Claim C7 witness: the amended theorem applied to a concrete store
holding one undecodable record and the crashed `planning` task. -/
theorem c7_witness : planningTask ∈ loadAllTasks [none, some planningTask] :=
  (c7_amended [none, some planningTask] planningTask).mpr (by simp)

/-- Claim C8 (confirmed): the RPC client makes at most 3 attempts, each a
fresh `attemptTaskExecution` call on a newly dialed connection; between
attempt n and attempt n+1 it waits n×2 seconds; the first successful
attempt's result is returned with every earlier attempt having failed; and
an error reaches the caller only when all 3 attempts failed. -/
theorem c8_retry_discipline (outcome : Nat → Except String TaskResult) :
    (executeTaskOnAgent outcome).attempts.length ≤ 3 ∧
    (∀ v, (executeTaskOnAgent outcome).result = Except.ok v →
      ∃ k, 1 ≤ k ∧ k ≤ 3 ∧ outcome k = Except.ok v ∧
        (executeTaskOnAgent outcome).attempts = List.range' 1 k ∧
        (executeTaskOnAgent outcome).waitsSeconds =
          (List.range' 1 (k - 1)).map (fun n => n * 2) ∧
        (∀ m, 1 ≤ m → m < k → ∃ e, outcome m = Except.error e)) ∧
    (∀ e, (executeTaskOnAgent outcome).result = Except.error e →
      (executeTaskOnAgent outcome).attempts = [1, 2, 3] ∧
      (executeTaskOnAgent outcome).waitsSeconds = [2, 4] ∧
      (∀ m, 1 ≤ m → m ≤ 3 → ∃ msg, outcome m = Except.error msg)) := by
  have hu : executeTaskOnAgent outcome =
      match outcome 1 with
      | .ok r => ⟨.ok r, [1], []⟩
      | .error _ =>
        match outcome 2 with
        | .ok r => ⟨.ok r, [1, 2], [2]⟩
        | .error _ =>
          match outcome 3 with
          | .ok r => ⟨.ok r, [1, 2, 3], [2, 4]⟩
          | .error _ => ⟨.error "failed after 3 attempts", [1, 2, 3], [2, 4]⟩ := by
    rcases h1 : outcome 1 with e1 | v1 <;>
      rcases h2 : outcome 2 with e2 | v2 <;>
        rcases h3 : outcome 3 with e3 | v3 <;>
          simp [executeTaskOnAgent, retryLoop, maxRetries, h1, h2, h3]
  rcases h1 : outcome 1 with e1 | v1
  · rcases h2 : outcome 2 with e2 | v2
    · rcases h3 : outcome 3 with e3 | v3
      · simp only [h1, h2, h3] at hu
        rw [hu]
        refine ⟨by simp, ?_, ?_⟩
        · intro v hv
          exact absurd hv (by simp)
        · intro e _
          refine ⟨rfl, rfl, ?_⟩
          intro m hm1 hm3
          interval_cases m
          · exact ⟨e1, h1⟩
          · exact ⟨e2, h2⟩
          · exact ⟨e3, h3⟩
      · simp only [h1, h2, h3] at hu
        rw [hu]
        refine ⟨by simp, ?_, ?_⟩
        · intro v hv
          simp only [Except.ok.injEq] at hv
          refine ⟨3, by omega, by omega, by rw [h3, hv], rfl, rfl, ?_⟩
          intro m hm1 hmk
          interval_cases m
          · exact ⟨e1, h1⟩
          · exact ⟨e2, h2⟩
        · intro e he
          exact absurd he (by simp)
    · simp only [h1, h2] at hu
      rw [hu]
      refine ⟨by simp, ?_, ?_⟩
      · intro v hv
        simp only [Except.ok.injEq] at hv
        refine ⟨2, by omega, by omega, by rw [h2, hv], rfl, rfl, ?_⟩
        intro m hm1 hmk
        interval_cases m
        exact ⟨e1, h1⟩
      · intro e he
        exact absurd he (by simp)
  · simp only [h1] at hu
    rw [hu]
    refine ⟨by simp, ?_, ?_⟩
    · intro v hv
      simp only [Except.ok.injEq] at hv
      refine ⟨1, by omega, by omega, by rw [h1, hv], rfl, rfl, ?_⟩
      intro m hm1 hmk
      omega
    · intro e he
      exact absurd he (by simp)

/-- Claim C8 witness: the retry theorem applied to the schedule whose
second attempt succeeds, with the success hypothesis discharged
concretely. -/
theorem c8_witness :
    ∃ k, 1 ≤ k ∧ k ≤ 3 ∧ w8outcome k = Except.ok okReply ∧
      (executeTaskOnAgent w8outcome).attempts = List.range' 1 k ∧
      (executeTaskOnAgent w8outcome).waitsSeconds =
        (List.range' 1 (k - 1)).map (fun n => n * 2) ∧
      (∀ m, 1 ≤ m → m < k → ∃ e, w8outcome m = Except.error e) :=
  (c8_retry_discipline w8outcome).2.1 okReply rfl

/-- When no dial within the window succeeds, the loop polls once per
remaining second and ends not ready, with no grace sleep. -/
theorem spawnWaitAux_all_fail (dialOk : Nat → Bool) :
    ∀ fuel t, (∀ m, m < fuel → dialOk (t + m) = false) →
      spawnWaitAux dialOk t fuel =
        { polls := fuel, ready := false, graceSleptSeconds := 0 } := by
  intro fuel
  induction fuel with
  | zero =>
    intro t _
    rfl
  | succ n ih =>
    intro t h
    have h0 : dialOk t = false := by simpa using h 0 (Nat.succ_pos n)
    simp only [spawnWaitAux, h0, Bool.false_eq_true, if_false]
    rw [ih (t + 1) ?_]
    · intro m hm
      have e : t + 1 + m = t + (m + 1) := by omega
      rw [e]
      exact h (m + 1) (by omega)

/-- The first successful dial, at second `k` of the window, stops the loop
after `k+1` polls with the grace sleep applied. -/
theorem spawnWaitAux_first_success (dialOk : Nat → Bool) :
    ∀ fuel t k, k < fuel → dialOk (t + k) = true →
      (∀ m, m < k → dialOk (t + m) = false) →
      spawnWaitAux dialOk t fuel =
        { polls := k + 1, ready := true, graceSleptSeconds := graceSeconds } := by
  intro fuel
  induction fuel with
  | zero =>
    intro t k hk
    exact absurd hk (Nat.not_lt_zero k)
  | succ n ih =>
    intro t k hk hsucc hfail
    cases k with
    | zero =>
      have h0 : dialOk t = true := by simpa using hsucc
      simp only [spawnWaitAux, h0, if_true]
    | succ kk =>
      have h0 : dialOk t = false := by simpa using hfail 0 (Nat.succ_pos kk)
      simp only [spawnWaitAux, h0, Bool.false_eq_true, if_false]
      rw [ih (t + 1) kk (by omega) ?_ ?_]
      · have e : t + 1 + kk = t + (kk + 1) := by omega
        rw [e]
        exact hsucc
      · intro m hm
        have e : t + 1 + m = t + (m + 1) := by omega
        rw [e]
        exact hfail (m + 1) (by omega)

/-- Claim C9 amended: the readiness wait polls a TCP dial once per second
for the 30-second window and pads the first success with the fixed
5-second grace; when the window expires without a success SpawnAgent still
returns the container handle and dial address with no error — but the
NotReady condition is only logged, never flagged to the caller: the
returned value is identical whether or not the container became ready. -/
theorem c9_amended (containerId : String) (port : Nat) (dialOk : Nat → Bool) :
    spawnAgentReturn containerId port dialOk =
      .ok { id := containerId, address := "host.docker.internal:" ++ toString port
            port := port } ∧
    ((∀ t, t < maxWaitSeconds → dialOk t = false) →
      spawnWait dialOk =
        { polls := maxWaitSeconds, ready := false, graceSleptSeconds := 0 }) ∧
    (∀ k, k < maxWaitSeconds → dialOk k = true → (∀ m, m < k → dialOk m = false) →
      spawnWait dialOk =
        { polls := k + 1, ready := true, graceSleptSeconds := graceSeconds }) := by
  refine ⟨rfl, ?_, ?_⟩
  · intro h
    exact spawnWaitAux_all_fail dialOk maxWaitSeconds 0
      (fun m hm => by simpa using h m (by simpa using hm))
  · intro k hk hs hf
    exact spawnWaitAux_first_success dialOk maxWaitSeconds 0 k hk (by simpa using hs)
      (fun m hm => by simpa using hf m hm)

/-- Claim C9 counterexample: SpawnAgent returns the very same handle and
address whether every dial of the readiness window fails or the first dial
succeeds, so no NotReady condition reaches the caller — refuting the
flagged-condition part of the claim (the rest of the claim holds, see the
amended theorem). -/
theorem c9_counterexample :
    spawnAgentReturn "c1" 50060 (fun _ => false) =
      spawnAgentReturn "c1" 50060 (fun _ => true) ∧
    spawnAgentReturn "c1" 50060 (fun _ => false) =
      .ok { id := "c1", address := "host.docker.internal:" ++ toString 50060
            port := 50060 } ∧
    (spawnWait (fun _ => false)).ready = false ∧
    (spawnWait (fun _ => true)).ready = true := by
  exact ⟨rfl, rfl, by decide, by decide⟩

/-- Claim C9 witness: the amended theorem applied to the schedule that
becomes ready at second 2 and to the schedule that never becomes ready,
all hypotheses discharged concretely. -/
theorem c9_witness :
    spawnWait w9dial = { polls := 3, ready := true, graceSleptSeconds := graceSeconds } ∧
    spawnWait (fun _ => false) =
      { polls := maxWaitSeconds, ready := false, graceSleptSeconds := 0 } :=
  ⟨(c9_amended "c1" 50060 w9dial).2.2 2 (by decide) (by decide)
      (fun m hm => by interval_cases m <;> rfl),
   (c9_amended "c1" 50060 (fun _ => false)).2.1 (fun t _ => rfl)⟩

/-- Claim C10: whenever the task id and the phase id of an approval
request resolve to existing records, the handler answers with the HTTP 200
JSON body `success=true` embedding the (updated) phase and the full task
snapshot — for approvals and rejections alike; a rejection is never an
HTTP error status. -/
theorem c10_approval_http (tasks : List TaskExecution) (req : PhaseApprovalRequest)
    (exec : TaskExecution) (i : Nat)
    (hT : findTask tasks req.taskId = some exec)
    (hP : findPhaseIdx exec.phases req.phaseId = some i) :
    ∃ t, (handlePhaseApproval tasks req).task = some t ∧
      (handlePhaseApproval tasks req).response =
        .ok200 true (approvalPhaseUpdate (exec.phases.getD i default) req) t := by
  unfold handlePhaseApproval
  rw [hT]
  dsimp only
  rw [hP]
  dsimp only
  unfold applyPhaseDecision
  by_cases hA : req.approved
  · simp only [hA, if_true]
    split
    · exact ⟨_, rfl, rfl⟩
    · exact ⟨_, rfl, rfl⟩
  · simp only [hA, Bool.false_eq_true, if_false]
    exact ⟨_, rfl, rfl⟩

/-- Claim C10 witness: the theorem applied to a concrete approval
(duplicate approval request) and a concrete rejection, both resolving to
existing records. -/
theorem c10_witness :
    (∃ t, (handlePhaseApproval [taskT2] dupApprovalReq).task = some t ∧
      (handlePhaseApproval [taskT2] dupApprovalReq).response =
        .ok200 true (approvalPhaseUpdate (taskT2.phases.getD 0 default) dupApprovalReq) t) ∧
    (∃ t, (handlePhaseApproval [taskT3] rejectReq).task = some t ∧
      (handlePhaseApproval [taskT3] rejectReq).response =
        .ok200 true (approvalPhaseUpdate (taskT3.phases.getD 0 default) rejectReq) t) :=
  ⟨c10_approval_http [taskT2] dupApprovalReq taskT2 0 (by decide) (by decide),
   c10_approval_http [taskT3] rejectReq taskT3 0 (by decide) (by decide)⟩

end AgentInc
